import Mathlib

/-!
Verification of `cmd/feed-dns/main.go` (the feed-dns wiring shim): flag
registration and defaults (`init`), `main`'s startup sequence, updater
creation (`createFrontendUpdater`) and the two configuration validators
(`validateAwsConfig`, `validateCdnsConfig`).

Durations are modelled in nanoseconds (Go `time.Duration` units).
-/

/-- Go `time.Duration`, in nanoseconds. -/
abbrev Duration := Nat

/-- Go `time.Minute` = 60 * 1e9 nanoseconds. -/
def timeMinute : Duration := 60 * 1000000000

/-- The package-level variables of `cmd/feed-dns/main.go` (lines 20-39). -/
structure Vars where
  debug : Bool
  kubeconfig : String
  resyncPeriod : Duration
  healthPort : Int
  albNames : List String
  elbLabelValue : String
  elbRegion : String
  r53HostedZone : String
  pushgatewayURL : String
  pushgatewayIntervalSeconds : Int
  pushgatewayLabels : List (String × String)
  awsAPIRetries : Int
  internalHostname : String
  externalHostname : String
  cnameTimeToLive : Duration
  dnsProvider : String
  cdnsHostedZone : String
  cdnsInstanceGroupPrefix : String
deriving Repr, DecidableEq

/-- The state of the package variables after `init` has run and before
`flag.Parse` processes any command-line argument: each `flag.*Var`
registration stores its default into its bound variable; `dnsProvider`
is bound by no registration (main.go line 87 binds the `dns-provider`
flag to `cdnsHostedZone`), so it keeps the Go zero value `""`. -/
def initVars : Vars where
  debug := false
  kubeconfig := ""
  resyncPeriod := 15 * timeMinute
  healthPort := 12082
  albNames := []
  elbLabelValue := ""
  elbRegion := "eu-west-1"
  r53HostedZone := ""
  pushgatewayURL := ""
  pushgatewayIntervalSeconds := 60
  pushgatewayLabels := []
  awsAPIRetries := 5
  internalHostname := ""
  externalHostname := ""
  cnameTimeToLive := 5 * timeMinute
  dnsProvider := ""
  cdnsHostedZone := ""
  cdnsInstanceGroupPrefix := ""

/-- One parsed command-line flag occurrence, named as registered in `init`. -/
inductive FlagArg where
  | debug (v : Bool)
  | kubeconfig (v : String)
  | resyncPeriod (v : Duration)
  | healthPort (v : Int)
  | albNames (v : List String)
  | elbRegion (v : String)
  | elbLabelValue (v : String)
  | r53HostedZone (v : String)
  | pushgateway (v : String)
  | pushgatewayInterval (v : Int)
  | pushgatewayLabel (v : String × String)
  | awsAPIRetries (v : Int)
  | internalHostname (v : String)
  | externalHostname (v : String)
  | cnameTTL (v : Duration)
  | dnsProvider (v : String)
  | cdnsHostedZone (v : String)
  | cdnsInstanceGroupPrefix (v : String)
deriving Repr, DecidableEq

/-- The effect of one flag occurrence on the package variables: each flag
writes the variable it was registered with in `init`. Note main.go line 87:
`flag.StringVar(&cdnsHostedZone, "dns-provider", ...)` binds the
`dns-provider` flag to the `cdnsHostedZone` variable, so `FlagArg.dnsProvider`
writes `cdnsHostedZone` and no flag writes the `dnsProvider` field. -/
def applyFlag (s : Vars) : FlagArg → Vars
  | .debug v => { s with debug := v }
  | .kubeconfig v => { s with kubeconfig := v }
  | .resyncPeriod v => { s with resyncPeriod := v }
  | .healthPort v => { s with healthPort := v }
  | .albNames v => { s with albNames := v }
  | .elbRegion v => { s with elbRegion := v }
  | .elbLabelValue v => { s with elbLabelValue := v }
  | .r53HostedZone v => { s with r53HostedZone := v }
  | .pushgateway v => { s with pushgatewayURL := v }
  | .pushgatewayInterval v => { s with pushgatewayIntervalSeconds := v }
  | .pushgatewayLabel v => { s with pushgatewayLabels := s.pushgatewayLabels ++ [v] }
  | .awsAPIRetries v => { s with awsAPIRetries := v }
  | .internalHostname v => { s with internalHostname := v }
  | .externalHostname v => { s with externalHostname := v }
  | .cnameTTL v => { s with cnameTimeToLive := v }
  | .dnsProvider v => { s with cdnsHostedZone := v }
  | .cdnsHostedZone v => { s with cdnsHostedZone := v }
  | .cdnsInstanceGroupPrefix v => { s with cdnsInstanceGroupPrefix := v }

/-- `flag.Parse`: fold the command-line flag occurrences, in order, over the
post-`init` defaults. -/
def parseFlags (args : List FlagArg) : Vars :=
  args.foldl applyFlag initVars

/-- `adapter.AWSAdapterConfig` as filled at main.go lines 146-151. -/
structure AWSAdapterConfig where
  region : String
  hostedZoneID : String
  elbLabelValue : String
  albNames : List String
deriving Repr, DecidableEq

/-- `cdns.Config` as filled at main.go lines 161-164. -/
structure CdnsConfig where
  instanceGroupPrefix : String
  hostedZone : String
deriving Repr, DecidableEq

/-- `adapter.FrontendAdapter`: the closed set of frontend-adapter variants
that main.go constructs. -/
inductive FrontendAdapter where
  | staticHostname (addressesWithScheme : List (String × String)) (ttl : Duration)
  | aws (config : AWSAdapterConfig)
  | cdns (config : CdnsConfig)
deriving Repr, DecidableEq

/-- `controller.Updater` values produced by `createFrontendUpdater`:
either `dns.New(hostedZone, adapter, retries)` or `cdns.NewUpdater(config)`. -/
inductive Updater where
  | dns (hostedZone : String) (adapter : FrontendAdapter) (retries : Int)
  | cdnsUpdater (adapter : FrontendAdapter) (config : CdnsConfig)
deriving Repr, DecidableEq

/-- The frontend adapter an updater drives. -/
def Updater.adapter : Updater → FrontendAdapter
  | .dns _ a _ => a
  | .cdnsUpdater a _ => a

/-- Results of the external constructors and calls that main.go invokes but
whose failure depends on the outside world (cloud sessions, the apiserver):
`none` means the call succeeds, `some e` that it fails with error text `e`. -/
structure ExtCalls where
  k8sErr : Option String
  awsAdapterErr : Option String
  cdnsAdapterErr : Option String
  cdnsUpdaterErr : Option String
  controllerStartErr : Option String
deriving Repr, DecidableEq

/-- Modelled from the spec: `adapter.NewAWSAdapter` (repository code outside
`src/`) builds the cloud-A (AWS/Route53) adapter variant from its config;
its only failure mode is external (session/API setup), so success is an
`ExtCalls` input. -/
def newAWSAdapter (ext : ExtCalls) (config : AWSAdapterConfig) : Except String FrontendAdapter :=
  match ext.awsAdapterErr with
  | some e => .error e
  | none => .ok (.aws config)

/-- Modelled from the spec: `adapter.NewStaticHostnameAdapter` (repository
code outside `src/`) builds the static variant from a fixed scheme-to-hostname
map and the explicitly configured TTL; it cannot fail. -/
def newStaticHostnameAdapter (addressesWithScheme : List (String × String))
    (ttl : Duration) : FrontendAdapter :=
  .staticHostname addressesWithScheme ttl

/-- Modelled from the spec: `cdns.NewAdapter` (repository code outside
`src/`) builds the cloud-B (Cloud DNS) adapter variant from its config;
failure is external. -/
def cdnsNewAdapter (ext : ExtCalls) (config : CdnsConfig) : Except String FrontendAdapter :=
  match ext.cdnsAdapterErr with
  | some e => .error e
  | none => .ok (.cdns config)

/-- Modelled from the spec: `cdns.NewUpdater` (repository code outside
`src/`) builds the updater that drives reconciliation through the Cloud DNS
adapter selected from this same configuration; failure is external. -/
def cdnsNewUpdater (ext : ExtCalls) (config : CdnsConfig) : Except String Updater :=
  match ext.cdnsUpdaterErr with
  | some e => .error e
  | none => .ok (.cdnsUpdater (.cdns config) config)

/-- Modelled from the spec: `dns.New` (repository code outside `src/`) wraps
an adapter into the DNS reconciliation updater with the given hosted zone and
operator-configured retry bound; at the main.go call site it cannot fail. -/
def dnsNew (hostedZone : String) (adapter : FrontendAdapter) (retries : Int) : Updater :=
  .dns hostedZone adapter retries

/-- The `addressesWithScheme` map built at main.go lines 134-141: starts
empty, gains key `"internal"` when `internalHostname` is nonempty, then key
`"internet-facing"` when `externalHostname` is nonempty. Modelled as an
association list in insertion order (the two keys are distinct). -/
def addressesWithScheme (v : Vars) : List (String × String) :=
  (if v.internalHostname ≠ "" then [("internal", v.internalHostname)] else []) ++
  (if v.externalHostname ≠ "" then [("internet-facing", v.externalHostname)] else [])

/-- `validateAwsConfig` (main.go lines 175-186): `some msg` means the
corresponding `log.Fatal(msg)` fires (the process exits), `none` that
validation passes. Checks run in source order. -/
def validateAwsConfig (v : Vars) : Option String :=
  if v.r53HostedZone = "" then
    some "Must supply r53-hosted-zone"
  else if v.elbLabelValue = "" ∧ v.albNames = [] ∧ v.internalHostname = "" ∧ v.externalHostname = "" then
    some "Must specify at least one of alb-names, elb-label-value, internal-hostname or external-hostname"
  else if (v.internalHostname ≠ "" ∨ v.externalHostname ≠ "") ∧ (v.elbLabelValue ≠ "" ∨ v.albNames.length > 0) then
    some "Can't supply both ELB/ALB and non-ALB/ELB hostname. Choose one or the other."
  else
    none

/-- `validateCdnsConfig` (main.go lines 188-195): `some msg` means the
corresponding `log.Fatalf(msg)` fires, `none` that validation passes. -/
def validateCdnsConfig (v : Vars) : Option String :=
  if v.cdnsInstanceGroupPrefix = "" then
    some "Must supply the cdns-instance-group-prefix value."
  else if v.cdnsHostedZone = "" then
    some "Must supply the cdns-hosted-zone name."
  else
    none

/-- Outcome of `createFrontendUpdater`: a `log.Fatal` inside a validator
(process exit), a returned error, or a returned updater. -/
inductive CreateResult where
  | fatal (msg : String)
  | err (msg : String)
  | ok (u : Updater)
deriving Repr, DecidableEq

/-- `createFrontendUpdater` (main.go lines 127-173), instrumented: the first
component is the outcome, the second the list of `FrontendAdapter` values the
function constructs, in construction order. The `switch dnsProvider` reads the
`dnsProvider` variable; `case "aws"` validates then picks the static adapter
when a static hostname is set and the AWS adapter otherwise, returning
`dns.New(r53HostedZone, adapter, awsAPIRetries)`; `case "gcp"` validates,
builds `cdns.NewAdapter(config)` into the local `dnsAdapter`, then returns
`cdns.NewUpdater(config)`; any other value returns the invalid-provider
error. -/
def createFrontendUpdaterTr (ext : ExtCalls) (v : Vars) : CreateResult × List FrontendAdapter :=
  if v.dnsProvider = "aws" then
    match validateAwsConfig v with
    | some m => (.fatal m, [])
    | none =>
      if v.internalHostname ≠ "" ∨ v.externalHostname ≠ "" then
        let dnsAdapter := newStaticHostnameAdapter (addressesWithScheme v) v.cnameTimeToLive
        (.ok (dnsNew v.r53HostedZone dnsAdapter v.awsAPIRetries), [dnsAdapter])
      else
        let config : AWSAdapterConfig :=
          ⟨v.elbRegion, v.r53HostedZone, v.elbLabelValue, v.albNames⟩
        match newAWSAdapter ext config with
        | .error e => (.err ("unable to create aws adapater: " ++ e), [])
        | .ok dnsAdapter =>
          (.ok (dnsNew v.r53HostedZone dnsAdapter v.awsAPIRetries), [dnsAdapter])
  else if v.dnsProvider = "gcp" then
    match validateCdnsConfig v with
    | some m => (.fatal m, [])
    | none =>
      let config : CdnsConfig := ⟨v.cdnsInstanceGroupPrefix, v.cdnsHostedZone⟩
      match cdnsNewAdapter ext config with
      | .error e => (.err ("unable to create gcp adapater: " ++ e), [])
      | .ok dnsAdapter =>
        match cdnsNewUpdater ext config with
        | .error e => (.err e, [dnsAdapter])
        | .ok u => (.ok u, [dnsAdapter])
  else
    (.err ("invalid dns-provider \"" ++ v.dnsProvider ++ "\". Must specify a valid value: aws, gcp"), [])

/-- The outcome of `createFrontendUpdater`. -/
def createFrontendUpdater (ext : ExtCalls) (v : Vars) : CreateResult :=
  (createFrontendUpdaterTr ext v).1

/-- The frontend adapters `createFrontendUpdater` constructs. -/
def constructedAdapters (ext : ExtCalls) (v : Vars) : List FrontendAdapter :=
  (createFrontendUpdaterTr ext v).2

/-- Observable steps of `main` (main.go lines 95-125), in execution order. -/
inductive Event where
  | configureLogging
  | configureMetrics
  | k8sNew
  | createUpdater
  | addHealthMetrics
  | addHealthPort
  | addSignalHandler
  | controllerStart
  | fatalExit (msg : String)
  | runForever
deriving Repr, DecidableEq

/-- The trace of `main` (main.go lines 95-125): logging and metrics are
configured, the k8s client is created (`log.Fatalf` on failure), the updater
is created (a validator `log.Fatal` or a `log.Fatalf` on returned error exits
the process), the controller is built and started, then `select {}` blocks
forever. -/
def mainTrace (ext : ExtCalls) (v : Vars) : List Event :=
  [.configureLogging, .configureMetrics, .k8sNew] ++
  match ext.k8sErr with
  | some e => [.fatalExit ("Unable to create k8s client: " ++ e)]
  | none =>
    [.createUpdater] ++
    match createFrontendUpdater ext v with
    | .fatal m => [.fatalExit m]
    | .err m => [.fatalExit ("Unable to create dns updater: " ++ m)]
    | .ok _ =>
      [.addHealthMetrics, .addHealthPort, .addSignalHandler, .controllerStart] ++
      match ext.controllerStartErr with
      | some e => [.fatalExit ("Error while starting controller: " ++ e)]
      | none => [.runForever]

/-- An `ExtCalls` in which every external call succeeds. -/
def extOk : ExtCalls := ⟨none, none, none, none, none⟩

/-- Example configuration: aws provider, hosted zone, internal static hostname. -/
def awsStaticVars : Vars :=
  { initVars with dnsProvider := "aws", r53HostedZone := "Z123",
                  internalHostname := "internal.example.com" }

/-- Example configuration: aws provider, hosted zone, ELB tag discovery. -/
def awsDiscoveryVars : Vars :=
  { initVars with dnsProvider := "aws", r53HostedZone := "Z123",
                  elbLabelValue := "feed" }

/-- Example configuration: aws provider with both a static hostname and ELB
tag discovery configured. -/
def awsConflictVars : Vars :=
  { initVars with dnsProvider := "aws", r53HostedZone := "Z123",
                  internalHostname := "internal.example.com",
                  elbLabelValue := "feed" }

/-- Example configuration: gcp provider, zone and instance-group settings. -/
def gcpVars : Vars :=
  { initVars with dnsProvider := "gcp", cdnsHostedZone := "example-zone",
                  cdnsInstanceGroupPrefix := "ig-feed" }

theorem cfu_aws_fatal (ext : ExtCalls) (v : Vars) (hp : v.dnsProvider = "aws")
    {m : String} (hval : validateAwsConfig v = some m) :
    createFrontendUpdaterTr ext v = (.fatal m, []) := by
  simp [createFrontendUpdaterTr, hp, hval]

theorem cfu_aws_static (ext : ExtCalls) (v : Vars) (hp : v.dnsProvider = "aws")
    (hval : validateAwsConfig v = none)
    (hs : v.internalHostname ≠ "" ∨ v.externalHostname ≠ "") :
    createFrontendUpdaterTr ext v =
      (.ok (.dns v.r53HostedZone
          (.staticHostname (addressesWithScheme v) v.cnameTimeToLive)
          v.awsAPIRetries),
       [.staticHostname (addressesWithScheme v) v.cnameTimeToLive]) := by
  simp [createFrontendUpdaterTr, hp, hval, hs, newStaticHostnameAdapter, dnsNew]

theorem cfu_aws_adapter (ext : ExtCalls) (v : Vars) (hp : v.dnsProvider = "aws")
    (hval : validateAwsConfig v = none)
    (h1 : v.internalHostname = "") (h2 : v.externalHostname = "")
    (hA : ext.awsAdapterErr = none) :
    createFrontendUpdaterTr ext v =
      (.ok (.dns v.r53HostedZone
          (.aws ⟨v.elbRegion, v.r53HostedZone, v.elbLabelValue, v.albNames⟩)
          v.awsAPIRetries),
       [.aws ⟨v.elbRegion, v.r53HostedZone, v.elbLabelValue, v.albNames⟩]) := by
  simp [createFrontendUpdaterTr, hp, hval, h1, h2, hA, newAWSAdapter, dnsNew]

theorem cfu_aws_adapterErr (ext : ExtCalls) (v : Vars) (hp : v.dnsProvider = "aws")
    (hval : validateAwsConfig v = none)
    (h1 : v.internalHostname = "") (h2 : v.externalHostname = "")
    {e : String} (hA : ext.awsAdapterErr = some e) :
    createFrontendUpdaterTr ext v = (.err ("unable to create aws adapater: " ++ e), []) := by
  simp [createFrontendUpdaterTr, hp, hval, h1, h2, hA, newAWSAdapter]

theorem cfu_gcp_fatal (ext : ExtCalls) (v : Vars) (hp : v.dnsProvider = "gcp")
    {m : String} (hval : validateCdnsConfig v = some m) :
    createFrontendUpdaterTr ext v = (.fatal m, []) := by
  simp [createFrontendUpdaterTr, hp, hval]

theorem cfu_gcp_ok (ext : ExtCalls) (v : Vars) (hp : v.dnsProvider = "gcp")
    (hval : validateCdnsConfig v = none)
    (hA : ext.cdnsAdapterErr = none) (hU : ext.cdnsUpdaterErr = none) :
    createFrontendUpdaterTr ext v =
      (.ok (.cdnsUpdater (.cdns ⟨v.cdnsInstanceGroupPrefix, v.cdnsHostedZone⟩)
          ⟨v.cdnsInstanceGroupPrefix, v.cdnsHostedZone⟩),
       [.cdns ⟨v.cdnsInstanceGroupPrefix, v.cdnsHostedZone⟩]) := by
  simp [createFrontendUpdaterTr, hp, hval, hA, hU, cdnsNewAdapter, cdnsNewUpdater]

theorem cfu_gcp_adapterErr (ext : ExtCalls) (v : Vars) (hp : v.dnsProvider = "gcp")
    (hval : validateCdnsConfig v = none)
    {e : String} (hA : ext.cdnsAdapterErr = some e) :
    createFrontendUpdaterTr ext v = (.err ("unable to create gcp adapater: " ++ e), []) := by
  simp [createFrontendUpdaterTr, hp, hval, hA, cdnsNewAdapter]

theorem cfu_gcp_updaterErr (ext : ExtCalls) (v : Vars) (hp : v.dnsProvider = "gcp")
    (hval : validateCdnsConfig v = none)
    (hA : ext.cdnsAdapterErr = none) {e : String} (hU : ext.cdnsUpdaterErr = some e) :
    createFrontendUpdaterTr ext v =
      (.err e, [.cdns ⟨v.cdnsInstanceGroupPrefix, v.cdnsHostedZone⟩]) := by
  simp [createFrontendUpdaterTr, hp, hval, hA, hU, cdnsNewAdapter, cdnsNewUpdater]

theorem cfu_other (ext : ExtCalls) (v : Vars)
    (h1 : v.dnsProvider ≠ "aws") (h2 : v.dnsProvider ≠ "gcp") :
    createFrontendUpdaterTr ext v =
      (.err ("invalid dns-provider \"" ++ v.dnsProvider ++ "\". Must specify a valid value: aws, gcp"),
       []) := by
  simp [createFrontendUpdaterTr, h1, h2]

theorem createFrontendUpdater_ok_inv (ext : ExtCalls) (v : Vars) (u : Updater)
    (h : createFrontendUpdater ext v = .ok u) :
    constructedAdapters ext v = [u.adapter] ∧
    ((v.dnsProvider = "aws" ∧ validateAwsConfig v = none ∧
       (((v.internalHostname ≠ "" ∨ v.externalHostname ≠ "") ∧
         u = .dns v.r53HostedZone
               (.staticHostname (addressesWithScheme v) v.cnameTimeToLive)
               v.awsAPIRetries) ∨
        (v.internalHostname = "" ∧ v.externalHostname = "" ∧
         u = .dns v.r53HostedZone
               (.aws ⟨v.elbRegion, v.r53HostedZone, v.elbLabelValue, v.albNames⟩)
               v.awsAPIRetries))) ∨
     (v.dnsProvider = "gcp" ∧ validateCdnsConfig v = none ∧
       u = .cdnsUpdater (.cdns ⟨v.cdnsInstanceGroupPrefix, v.cdnsHostedZone⟩)
             ⟨v.cdnsInstanceGroupPrefix, v.cdnsHostedZone⟩)) := by
  unfold createFrontendUpdater at h
  unfold constructedAdapters
  by_cases hp : v.dnsProvider = "aws"
  · rcases hval : validateAwsConfig v with _ | m
    · by_cases hs : v.internalHostname ≠ "" ∨ v.externalHostname ≠ ""
      · rw [cfu_aws_static ext v hp hval hs] at h ⊢
        injection h with h
        subst h
        exact ⟨rfl, Or.inl ⟨hp, rfl, Or.inl ⟨hs, rfl⟩⟩⟩
      · push_neg at hs
        rcases hA : ext.awsAdapterErr with _ | e
        · rw [cfu_aws_adapter ext v hp hval hs.1 hs.2 hA] at h ⊢
          injection h with h
          subst h
          exact ⟨rfl, Or.inl ⟨hp, rfl, Or.inr ⟨hs.1, hs.2, rfl⟩⟩⟩
        · rw [cfu_aws_adapterErr ext v hp hval hs.1 hs.2 hA] at h
          simp at h
    · rw [cfu_aws_fatal ext v hp hval] at h
      simp at h
  · by_cases hg : v.dnsProvider = "gcp"
    · rcases hval : validateCdnsConfig v with _ | m
      · rcases hA : ext.cdnsAdapterErr with _ | e
        · rcases hU : ext.cdnsUpdaterErr with _ | e
          · rw [cfu_gcp_ok ext v hg hval hA hU] at h ⊢
            injection h with h
            subst h
            exact ⟨rfl, Or.inr ⟨hg, rfl, rfl⟩⟩
          · rw [cfu_gcp_updaterErr ext v hg hval hA hU] at h
            simp at h
        · rw [cfu_gcp_adapterErr ext v hg hval hA] at h
          simp at h
      · rw [cfu_gcp_fatal ext v hg hval] at h
        simp at h
    · rw [cfu_other ext v hp hg] at h
      simp at h

/-- C1: the claim fails on the code. main.go line 87 registers the
`dns-provider` flag against the `cdnsHostedZone` variable, so parsing
`-dns-provider aws` (or `gcp`) leaves the `dnsProvider` variable at its zero
value `""` and writes the flag value into `cdnsHostedZone`;
`createFrontendUpdater` then takes the default switch branch and fails with
the invalid-provider error instead of taking the AWS (resp. Cloud DNS)
adapter path — contradicting the flag's own help text. -/
theorem c1_dns_provider_flag_misbound :
    (parseFlags [.dnsProvider "aws"]).dnsProvider = "" ∧
    (parseFlags [.dnsProvider "aws"]).cdnsHostedZone = "aws" ∧
    createFrontendUpdater extOk (parseFlags [.dnsProvider "aws"]) =
      .err "invalid dns-provider \"\". Must specify a valid value: aws, gcp" ∧
    (parseFlags [.dnsProvider "gcp"]).dnsProvider = "" ∧
    createFrontendUpdater extOk (parseFlags [.dnsProvider "gcp"]) =
      .err "invalid dns-provider \"\". Must specify a valid value: aws, gcp" ∧
    createFrontendUpdater extOk
        (parseFlags [.dnsProvider "aws", .r53HostedZone "Z123", .elbLabelValue "feed"]) =
      .err "invalid dns-provider \"\". Must specify a valid value: aws, gcp" :=
  ⟨rfl, rfl, rfl, rfl, rfl, rfl⟩

/-- C2: whenever `createFrontendUpdater` succeeds it constructed exactly one
frontend adapter, and that adapter is the one the returned updater drives:
the static-hostname adapter when a static hostname is configured on the aws
path, otherwise the AWS adapter on the aws path, and the Cloud DNS adapter on
the gcp path — never two adapters in one process. -/
theorem c2_exactly_one_adapter (ext : ExtCalls) (v : Vars) (u : Updater)
    (h : createFrontendUpdater ext v = .ok u) :
    constructedAdapters ext v = [u.adapter] ∧
    (v.dnsProvider = "aws" → (v.internalHostname ≠ "" ∨ v.externalHostname ≠ "") →
      ∃ m t, u.adapter = .staticHostname m t) ∧
    (v.dnsProvider = "aws" → v.internalHostname = "" → v.externalHostname = "" →
      ∃ c, u.adapter = .aws c) ∧
    (v.dnsProvider = "gcp" → ∃ c, u.adapter = .cdns c) := by
  obtain ⟨hone, hcases⟩ := createFrontendUpdater_ok_inv ext v u h
  refine ⟨hone, ?_, ?_, ?_⟩
  · intro _ hs
    rcases hcases with ⟨_, _, ⟨_, rfl⟩ | ⟨h1, h2, rfl⟩⟩ | ⟨hg, _, _⟩
    · exact ⟨_, _, rfl⟩
    · rcases hs with hs | hs
      · exact absurd h1 hs
      · exact absurd h2 hs
    · rename_i ha _ _
      exact absurd (ha.symm.trans hg) (by decide)
  · intro ha h1 h2
    rcases hcases with ⟨_, _, ⟨hs, rfl⟩ | ⟨_, _, rfl⟩⟩ | ⟨hg, _, _⟩
    · rcases hs with hs | hs
      · exact absurd h1 hs
      · exact absurd h2 hs
    · exact ⟨_, rfl⟩
    · exact absurd (ha.symm.trans hg) (by decide)
  · intro hg
    rcases hcases with ⟨ha, _, ⟨_, rfl⟩ | ⟨_, _, rfl⟩⟩ | ⟨_, _, rfl⟩
    · exact absurd (ha.symm.trans hg) (by decide)
    · exact absurd (ha.symm.trans hg) (by decide)
    · exact ⟨_, rfl⟩

/-- C2 witness: on a concrete aws configuration with a static internal
hostname, exactly one adapter is constructed and it is the returned
updater's adapter. -/
theorem c2_witness :
    createFrontendUpdater extOk awsStaticVars =
      .ok (.dns "Z123"
        (.staticHostname [("internal", "internal.example.com")] (5 * timeMinute)) 5) ∧
    constructedAdapters extOk awsStaticVars =
      [Updater.adapter (.dns "Z123"
        (.staticHostname [("internal", "internal.example.com")] (5 * timeMinute)) 5)] :=
  ⟨rfl, (c2_exactly_one_adapter extOk awsStaticVars _ rfl).1⟩

/-- C3: whenever updater creation fails in `main` — a validator `log.Fatal`
or a returned error — the process exits fatally and `controller.Start` never
appears in the trace, so no reconciliation pass runs under an invalid
configuration. -/
theorem c3_config_error_stops_before_start (ext : ExtCalls) (v : Vars)
    (h : (∃ m, createFrontendUpdater ext v = .fatal m) ∨
         (∃ m, createFrontendUpdater ext v = .err m)) :
    Event.controllerStart ∉ mainTrace ext v ∧
    ∃ m, Event.fatalExit m ∈ mainTrace ext v := by
  rcases hk : ext.k8sErr with _ | e
  · rcases h with ⟨m, hm⟩ | ⟨m, hm⟩
    · exact ⟨by simp [mainTrace, hk, hm], m, by simp [mainTrace, hk, hm]⟩
    · exact ⟨by simp [mainTrace, hk, hm],
        "Unable to create dns updater: " ++ m, by simp [mainTrace, hk, hm]⟩
  · exact ⟨by simp [mainTrace, hk],
      "Unable to create k8s client: " ++ e, by simp [mainTrace, hk]⟩

/-- C3 witness: with the default configuration (empty provider) updater
creation fails and the main trace reaches a fatal exit without ever starting
the controller. -/
theorem c3_witness :
    ((∃ m, createFrontendUpdater extOk initVars = .fatal m) ∨
     (∃ m, createFrontendUpdater extOk initVars = .err m)) ∧
    (Event.controllerStart ∉ mainTrace extOk initVars ∧
     ∃ m, Event.fatalExit m ∈ mainTrace extOk initVars) :=
  ⟨Or.inr ⟨"invalid dns-provider \"\". Must specify a valid value: aws, gcp", rfl⟩,
   c3_config_error_stops_before_start extOk initVars
     (Or.inr ⟨"invalid dns-provider \"\". Must specify a valid value: aws, gcp", rfl⟩)⟩

/-- C4: configuring both a static hostname and a load-balancer discovery
source on the aws path is fatal at startup: validation `log.Fatal`s and no
updater is created. -/
theorem c4_conflicting_config_fatal (ext : ExtCalls) (v : Vars)
    (hp : v.dnsProvider = "aws")
    (hs : v.internalHostname ≠ "" ∨ v.externalHostname ≠ "")
    (hd : v.elbLabelValue ≠ "" ∨ v.albNames ≠ []) :
    (∃ m, createFrontendUpdater ext v = .fatal m) ∧
    ∀ u, createFrontendUpdater ext v ≠ .ok u := by
  have hval : ∃ m, validateAwsConfig v = some m := by
    unfold validateAwsConfig
    by_cases hr : v.r53HostedZone = ""
    · rw [if_pos hr]; exact ⟨_, rfl⟩
    · rw [if_neg hr]
      have h2 : ¬(v.elbLabelValue = "" ∧ v.albNames = [] ∧
          v.internalHostname = "" ∧ v.externalHostname = "") := by
        rintro ⟨-, -, h3, h4⟩
        rcases hs with hs | hs
        · exact hs h3
        · exact hs h4
      rw [if_neg h2]
      have h3 : (v.internalHostname ≠ "" ∨ v.externalHostname ≠ "") ∧
          (v.elbLabelValue ≠ "" ∨ v.albNames.length > 0) := by
        refine ⟨hs, ?_⟩
        rcases hd with hd | hd
        · exact Or.inl hd
        · exact Or.inr (List.length_pos.mpr hd)
      rw [if_pos h3]; exact ⟨_, rfl⟩
  obtain ⟨m, hm⟩ := hval
  have ht := cfu_aws_fatal ext v hp hm
  constructor
  · exact ⟨m, by unfold createFrontendUpdater; rw [ht]⟩
  · intro u hu
    unfold createFrontendUpdater at hu
    rw [ht] at hu
    simp at hu

/-- C4 witness: a concrete configuration with both an internal static
hostname and an ELB discovery tag is rejected fatally. -/
theorem c4_witness :
    (∃ m, createFrontendUpdater extOk awsConflictVars = .fatal m) ∧
    ∀ u, createFrontendUpdater extOk awsConflictVars ≠ .ok u :=
  c4_conflicting_config_fatal extOk awsConflictVars rfl
    (Or.inl (by decide)) (Or.inl (by decide))

/-- C5: missing mandatory provider configuration is fatal at startup: on the
aws path when the hosted zone is empty or no frontend source at all is
configured; on the gcp path when the instance-group prefix or the Cloud DNS
hosted zone is empty. -/
theorem c5_missing_mandatory_fatal (ext : ExtCalls) (v : Vars) :
    (v.dnsProvider = "aws" →
      (v.r53HostedZone = "" ∨
        (v.elbLabelValue = "" ∧ v.albNames = [] ∧
         v.internalHostname = "" ∧ v.externalHostname = "")) →
      ∃ m, createFrontendUpdater ext v = .fatal m) ∧
    (v.dnsProvider = "gcp" →
      (v.cdnsInstanceGroupPrefix = "" ∨ v.cdnsHostedZone = "") →
      ∃ m, createFrontendUpdater ext v = .fatal m) := by
  constructor
  · intro hp hmiss
    have hval : ∃ m, validateAwsConfig v = some m := by
      unfold validateAwsConfig
      rcases hmiss with hr | hall
      · rw [if_pos hr]; exact ⟨_, rfl⟩
      · by_cases hr : v.r53HostedZone = ""
        · rw [if_pos hr]; exact ⟨_, rfl⟩
        · rw [if_neg hr, if_pos hall]; exact ⟨_, rfl⟩
    obtain ⟨m, hm⟩ := hval
    exact ⟨m, by unfold createFrontendUpdater; rw [cfu_aws_fatal ext v hp hm]⟩
  · intro hp hmiss
    have hval : ∃ m, validateCdnsConfig v = some m := by
      unfold validateCdnsConfig
      rcases hmiss with hg | hz
      · rw [if_pos hg]; exact ⟨_, rfl⟩
      · by_cases hg : v.cdnsInstanceGroupPrefix = ""
        · rw [if_pos hg]; exact ⟨_, rfl⟩
        · rw [if_neg hg, if_pos hz]; exact ⟨_, rfl⟩
    obtain ⟨m, hm⟩ := hval
    exact ⟨m, by unfold createFrontendUpdater; rw [cfu_gcp_fatal ext v hp hm]⟩

/-- C5 witness: the aws path with everything else left at its default is
fatal, and so is the gcp path with its defaults. -/
theorem c5_witness :
    (∃ m, createFrontendUpdater extOk { initVars with dnsProvider := "aws" } = .fatal m) ∧
    (∃ m, createFrontendUpdater extOk { initVars with dnsProvider := "gcp" } = .fatal m) :=
  ⟨(c5_missing_mandatory_fatal extOk _).1 rfl (Or.inl rfl),
   (c5_missing_mandatory_fatal extOk _).2 rfl (Or.inl rfl)⟩

/-- C6: on the aws path with at least one static hostname, the map handed to
the static adapter holds `"internal"` mapped to the internal hostname exactly
when it is nonempty, `"internet-facing"` mapped to the external hostname
exactly when it is nonempty, and no other key. -/
theorem c6_static_map_exact (ext : ExtCalls) (v : Vars)
    (hp : v.dnsProvider = "aws")
    (hval : validateAwsConfig v = none)
    (hs : v.internalHostname ≠ "" ∨ v.externalHostname ≠ "") :
    createFrontendUpdater ext v =
      .ok (.dns v.r53HostedZone
        (.staticHostname (addressesWithScheme v) v.cnameTimeToLive)
        v.awsAPIRetries) ∧
    (addressesWithScheme v).lookup "internal" =
      (if v.internalHostname ≠ "" then some v.internalHostname else none) ∧
    (addressesWithScheme v).lookup "internet-facing" =
      (if v.externalHostname ≠ "" then some v.externalHostname else none) ∧
    ∀ k, k ≠ "internal" → k ≠ "internet-facing" →
      (addressesWithScheme v).lookup k = none := by
  refine ⟨by unfold createFrontendUpdater; rw [cfu_aws_static ext v hp hval hs], ?_, ?_, ?_⟩
  · unfold addressesWithScheme
    by_cases h1 : v.internalHostname ≠ "" <;> by_cases h2 : v.externalHostname ≠ "" <;>
      simp [h1, h2, List.lookup]
  · unfold addressesWithScheme
    by_cases h1 : v.internalHostname ≠ "" <;> by_cases h2 : v.externalHostname ≠ "" <;>
      simp [h1, h2, List.lookup]
  · intro k hk1 hk2
    have e1 : (k == "internal") = false := beq_eq_false_iff_ne.mpr hk1
    have e2 : (k == "internet-facing") = false := beq_eq_false_iff_ne.mpr hk2
    have e3 : ("internal" == k) = false := beq_eq_false_iff_ne.mpr (fun h => hk1 h.symm)
    have e4 : ("internet-facing" == k) = false := beq_eq_false_iff_ne.mpr (fun h => hk2 h.symm)
    unfold addressesWithScheme
    by_cases h1 : v.internalHostname ≠ "" <;> by_cases h2 : v.externalHostname ≠ "" <;>
      simp [h1, h2, List.lookup, e1, e2, e3, e4]

/-- C6 witness: with only the internal hostname configured, the concrete map
holds exactly the `"internal"` entry. -/
theorem c6_witness :
    createFrontendUpdater extOk awsStaticVars =
      .ok (.dns "Z123"
        (.staticHostname (addressesWithScheme awsStaticVars) (5 * timeMinute)) 5) ∧
    (addressesWithScheme awsStaticVars).lookup "internal" = some "internal.example.com" ∧
    (addressesWithScheme awsStaticVars).lookup "internet-facing" = none ∧
    (addressesWithScheme awsStaticVars).lookup "other" = none := by
  obtain ⟨h1, h2, h3, h4⟩ := c6_static_map_exact extOk awsStaticVars rfl rfl (Or.inl (by decide))
  exact ⟨h1, by rw [h2]; rfl, by rw [h3]; rfl, h4 "other" (by decide) (by decide)⟩

/-- C7: whenever the returned updater drives a static-hostname adapter, that
adapter's TTL is exactly the configured `cname-ttl` value, whose default is
five minutes. -/
theorem c7_static_ttl_from_config (ext : ExtCalls) (v : Vars)
    (hz : String) (m : List (String × String)) (t : Duration) (r : Int)
    (h : createFrontendUpdater ext v = .ok (.dns hz (.staticHostname m t) r)) :
    t = v.cnameTimeToLive ∧ initVars.cnameTimeToLive = 5 * timeMinute := by
  obtain ⟨-, hc⟩ := createFrontendUpdater_ok_inv ext v _ h
  refine ⟨?_, rfl⟩
  rcases hc with ⟨_, _, ⟨_, hu⟩ | ⟨_, _, hu⟩⟩ | ⟨_, _, hu⟩
  · simp only [Updater.dns.injEq, FrontendAdapter.staticHostname.injEq] at hu
    exact hu.2.1.2
  · simp at hu
  · simp at hu

/-- C7 witness: the concrete static adapter is built with the default
five-minute TTL, which equals the configured value. -/
theorem c7_witness :
    createFrontendUpdater extOk awsStaticVars =
      .ok (.dns "Z123"
        (.staticHostname [("internal", "internal.example.com")] (5 * timeMinute)) 5) ∧
    (5 * timeMinute = awsStaticVars.cnameTimeToLive ∧
     initVars.cnameTimeToLive = 5 * timeMinute) :=
  ⟨rfl, c7_static_ttl_from_config extOk awsStaticVars "Z123"
    [("internal", "internal.example.com")] (5 * timeMinute) 5 rfl⟩

/-- C8: every updater returned on the aws path carries exactly the configured
`aws-api-retries` value as its retry bound, and the default is 5. -/
theorem c8_retries_from_config (ext : ExtCalls) (v : Vars) (u : Updater)
    (hp : v.dnsProvider = "aws")
    (h : createFrontendUpdater ext v = .ok u) :
    (∃ a, u = .dns v.r53HostedZone a v.awsAPIRetries) ∧
    initVars.awsAPIRetries = 5 := by
  obtain ⟨-, hc⟩ := createFrontendUpdater_ok_inv ext v u h
  refine ⟨?_, rfl⟩
  rcases hc with ⟨_, _, ⟨_, rfl⟩ | ⟨_, _, rfl⟩⟩ | ⟨hg, _, _⟩
  · exact ⟨_, rfl⟩
  · exact ⟨_, rfl⟩
  · exact absurd (hp.symm.trans hg) (by decide)

/-- C8 witness: the concrete discovery-path updater carries retry bound 5. -/
theorem c8_witness :
    createFrontendUpdater extOk awsDiscoveryVars =
      .ok (.dns "Z123" (.aws ⟨"eu-west-1", "Z123", "feed", []⟩) 5) ∧
    ((∃ a, (Updater.dns "Z123" (.aws ⟨"eu-west-1", "Z123", "feed", []⟩) 5) =
        .dns awsDiscoveryVars.r53HostedZone a awsDiscoveryVars.awsAPIRetries) ∧
     initVars.awsAPIRetries = 5) :=
  ⟨rfl, c8_retries_from_config extOk awsDiscoveryVars
    (.dns "Z123" (.aws ⟨"eu-west-1", "Z123", "feed", []⟩) 5) rfl rfl⟩

/-- C9: supplying only one of the two static hostnames is accepted on the aws
path: validation passes, the static adapter is selected, and its map holds an
entry for that one scheme only. -/
theorem c9_single_hostname_accepted (ext : ExtCalls) (v : Vars)
    (hp : v.dnsProvider = "aws") (hr : v.r53HostedZone ≠ "")
    (he : v.elbLabelValue = "") (hal : v.albNames = []) :
    (v.internalHostname ≠ "" → v.externalHostname = "" →
      validateAwsConfig v = none ∧
      createFrontendUpdater ext v =
        .ok (.dns v.r53HostedZone
          (.staticHostname [("internal", v.internalHostname)] v.cnameTimeToLive)
          v.awsAPIRetries)) ∧
    (v.internalHostname = "" → v.externalHostname ≠ "" →
      validateAwsConfig v = none ∧
      createFrontendUpdater ext v =
        .ok (.dns v.r53HostedZone
          (.staticHostname [("internet-facing", v.externalHostname)] v.cnameTimeToLive)
          v.awsAPIRetries)) := by
  have hdisc : ¬(v.elbLabelValue ≠ "" ∨ v.albNames.length > 0) := by
    rintro (h5 | h6)
    · exact h5 he
    · rw [hal] at h6; exact absurd h6 (by decide)
  constructor
  · intro hi hx
    have hval : validateAwsConfig v = none := by
      unfold validateAwsConfig
      rw [if_neg hr, if_neg (by rintro ⟨-, -, h3, -⟩; exact hi h3),
          if_neg (by rintro ⟨-, hd⟩; exact hdisc hd)]
    have hmap : addressesWithScheme v = [("internal", v.internalHostname)] := by
      unfold addressesWithScheme
      rw [if_pos hi, if_neg (fun hh => hh hx)]
      rfl
    refine ⟨hval, ?_⟩
    unfold createFrontendUpdater
    rw [cfu_aws_static ext v hp hval (Or.inl hi), hmap]
  · intro hi hx
    have hval : validateAwsConfig v = none := by
      unfold validateAwsConfig
      rw [if_neg hr, if_neg (by rintro ⟨-, -, -, h4⟩; exact hx h4),
          if_neg (by rintro ⟨-, hd⟩; exact hdisc hd)]
    have hmap : addressesWithScheme v = [("internet-facing", v.externalHostname)] := by
      unfold addressesWithScheme
      rw [if_neg (fun hh => hh hi), if_pos hx]
      rfl
    refine ⟨hval, ?_⟩
    unfold createFrontendUpdater
    rw [cfu_aws_static ext v hp hval (Or.inr hx), hmap]

/-- C9 witness: internal hostname only, no external hostname: accepted, and
the map holds only the `"internal"` entry. -/
theorem c9_witness :
    validateAwsConfig awsStaticVars = none ∧
    createFrontendUpdater extOk awsStaticVars =
      .ok (.dns awsStaticVars.r53HostedZone
        (.staticHostname [("internal", awsStaticVars.internalHostname)]
          awsStaticVars.cnameTimeToLive)
        awsStaticVars.awsAPIRetries) :=
  (c9_single_hostname_accepted extOk awsStaticVars rfl (by decide) rfl rfl).1
    (by decide) rfl

/-- C10: on the gcp branch the static hostname overrides are never read:
varying `internalHostname` and `externalHostname` leaves the whole result of
`createFrontendUpdater` — outcome and constructed adapters — unchanged. -/
theorem c10_gcp_ignores_static_hostnames (ext : ExtCalls) (v : Vars)
    (a b a' b' : String) (hp : v.dnsProvider = "gcp") :
    createFrontendUpdaterTr ext { v with internalHostname := a, externalHostname := b } =
      createFrontendUpdaterTr ext { v with internalHostname := a', externalHostname := b' } := by
  have hp1 : ({ v with internalHostname := a, externalHostname := b } : Vars).dnsProvider = "gcp" := hp
  have hp2 : ({ v with internalHostname := a', externalHostname := b' } : Vars).dnsProvider = "gcp" := hp
  rcases hval : validateCdnsConfig v with _ | m
  · rcases hA : ext.cdnsAdapterErr with _ | e
    · rcases hU : ext.cdnsUpdaterErr with _ | e
      · exact (cfu_gcp_ok ext _ hp1 hval hA hU).trans (cfu_gcp_ok ext _ hp2 hval hA hU).symm
      · exact (cfu_gcp_updaterErr ext _ hp1 hval hA hU).trans
          (cfu_gcp_updaterErr ext _ hp2 hval hA hU).symm
    · exact (cfu_gcp_adapterErr ext _ hp1 hval hA).trans
        (cfu_gcp_adapterErr ext _ hp2 hval hA).symm
  · exact (cfu_gcp_fatal ext _ hp1 hval).trans (cfu_gcp_fatal ext _ hp2 hval).symm

/-- C10 witness: on a concrete gcp configuration, adding static hostnames
changes nothing about the result. -/
theorem c10_witness :
    createFrontendUpdaterTr extOk
        { gcpVars with internalHostname := "internal.example.com",
                       externalHostname := "external.example.com" } =
      createFrontendUpdaterTr extOk
        { gcpVars with internalHostname := "", externalHostname := "" } :=
  c10_gcp_ignores_static_hostnames extOk gcpVars
    "internal.example.com" "external.example.com" "" "" rfl
